import Mathlib

/-
  Verification of the resilient outbound-call layer of the deep-wordsmith
  repository: the CircuitBreaker state machine, the retry/backoff pipeline of
  EnhancedApiService.get, the error classifier (isRetryableError and
  handleError), and the credential checks of the service adapters.

  The embedding is shallow and executable.  Timestamps are naturals (the value
  of Date.now in milliseconds); a JavaScript Error object is embedded by its
  message string; the observer callback onStateChange has no semantic effect on
  the machine and is omitted.  Each breaker method of the source becomes a pure
  function from the breaker record to the breaker record.
-/

namespace DeepWordsmith

/-- The three states of the circuit breaker, from the source type
CircuitBreakerState. -/
inductive CBState where
  | CLOSED
  | OPEN
  | HALF_OPEN
deriving DecidableEq, Repr

/-- CircuitBreakerOptions from the source: failureThreshold, successThreshold
and timeout (milliseconds to wait before attempting to recover).  The
monitorIntervalMs and onStateChange fields have no effect on the state machine
and are omitted. -/
structure CircuitBreakerOptions where
  failureThreshold : Nat
  successThreshold : Nat
  timeout : Nat
deriving DecidableEq, Repr

/-- The mutable fields of the CircuitBreaker class.  lastError keeps the
message of the last Error recorded by onFailure. -/
structure CircuitBreaker where
  state : CBState
  failureCount : Nat
  successCount : Nat
  nextAttempt : Nat
  lastError : Option String
deriving DecidableEq, Repr

namespace CircuitBreaker

/-- The initial breaker: state CLOSED, counters 0, nextAttempt 0, no error. -/
def init : CircuitBreaker :=
  { state := CBState.CLOSED
    failureCount := 0
    successCount := 0
    nextAttempt := 0
    lastError := none }

/-- CircuitBreaker.reset: force CLOSED and zero failureCount, successCount and
nextAttempt.  The source does not clear lastError. -/
def reset (cb : CircuitBreaker) : CircuitBreaker :=
  { cb with
      state := CBState.CLOSED
      failureCount := 0
      successCount := 0
      nextAttempt := 0 }

/-- CircuitBreaker.toOpen: change state to OPEN, set
nextAttempt to now plus the configured timeout, and zero successCount. -/
def toOpen (opts : CircuitBreakerOptions) (now : Nat) (cb : CircuitBreaker) :
    CircuitBreaker :=
  { cb with
      state := CBState.OPEN
      nextAttempt := now + opts.timeout
      successCount := 0 }

/-- CircuitBreaker.toHalfOpen: change state to HALF_OPEN and zero
successCount. -/
def toHalfOpen (cb : CircuitBreaker) : CircuitBreaker :=
  { cb with state := CBState.HALF_OPEN, successCount := 0 }

/-- CircuitBreaker.onSuccess: in HALF_OPEN increment successCount and reset to
CLOSED once it reaches successThreshold; in CLOSED reset failureCount to 0;
in OPEN do nothing. -/
def onSuccess (opts : CircuitBreakerOptions) (cb : CircuitBreaker) :
    CircuitBreaker :=
  match cb.state with
  | CBState.HALF_OPEN =>
      let cb1 := { cb with successCount := cb.successCount + 1 }
      if opts.successThreshold ≤ cb1.successCount then cb1.reset else cb1
  | CBState.CLOSED => { cb with failureCount := 0 }
  | CBState.OPEN => cb

/-- CircuitBreaker.onFailure: record lastError; in HALF_OPEN go OPEN at once;
in CLOSED increment failureCount and go OPEN when it reaches failureThreshold;
in OPEN do nothing. -/
def onFailure (opts : CircuitBreakerOptions) (now : Nat) (cb : CircuitBreaker)
    (errMsg : String) : CircuitBreaker :=
  let cb0 := { cb with lastError := some errMsg }
  match cb.state with
  | CBState.HALF_OPEN => toOpen opts now cb0
  | CBState.CLOSED =>
      let cb1 := { cb0 with failureCount := cb0.failureCount + 1 }
      if opts.failureThreshold ≤ cb1.failureCount then toOpen opts now cb1
      else cb1
  | CBState.OPEN => cb0

/-- The message of the Error thrown by execute when the circuit is OPEN and
the timeout has not elapsed: it names the open circuit and appends the message
of lastError when one is present. -/
def openMessage (lastError : Option String) : String :=
  "Service unavailable - Circuit Breaker Open" ++
    (match lastError with
     | some m => ": " ++ m
     | none => "")

/-- Outcome of the wrapped operation passed to execute: the promise either
resolves with a value or rejects with an Error (embedded by its message). -/
inductive Outcome (α : Type) where
  | ok (v : α)
  | fail (errMsg : String)
deriving DecidableEq, Repr

/-- Result of one execute call: the value or thrown error, the breaker after
the call, how many times the wrapped operation was invoked, and the breaker
state at the moment of invocation (none when it was not invoked). -/
structure ExecResult (α : Type) where
  result : Except String α
  cb : CircuitBreaker
  invocations : Nat
  stateAtInvocation : Option CBState
deriving Repr

/-- Shared tail of execute: run the operation and dispatch to onSuccess or
onFailure. -/
def runOp {α : Type} (opts : CircuitBreakerOptions) (now : Nat)
    (cb : CircuitBreaker) (op : Outcome α) : ExecResult α :=
  match op with
  | Outcome.ok v =>
      { result := Except.ok v
        cb := onSuccess opts cb
        invocations := 1
        stateAtInvocation := some cb.state }
  | Outcome.fail e =>
      { result := Except.error e
        cb := onFailure opts now cb e
        invocations := 1
        stateAtInvocation := some cb.state }

/-- CircuitBreaker.execute: when OPEN, transition to HALF_OPEN and proceed only
if now is strictly greater than nextAttempt, otherwise throw the circuit-open
error without invoking the operation; otherwise invoke the operation and
record its outcome. -/
def execute {α : Type} (opts : CircuitBreakerOptions) (now : Nat)
    (cb : CircuitBreaker) (op : Outcome α) : ExecResult α :=
  if cb.state = CBState.OPEN then
    if cb.nextAttempt < now then
      runOp opts now (toHalfOpen cb) op
    else
      { result := Except.error (openMessage cb.lastError)
        cb := cb
        invocations := 0
        stateAtInvocation := none }
  else
    runOp opts now cb op

end CircuitBreaker

/-! ## EnhancedApiService: error classification and the retry pipeline -/

/-- A raw transport failure as seen by EnhancedApiService: an axios error with
the optional HTTP status of its response, its optional connection error code
and the optional server-provided message of the response body; a plain
JavaScript Error; or a non-Error thrown value (embedded by its string
rendering). -/
inductive TransportError where
  | axios (status : Option Nat) (connCode : Option String)
      (serverMsg : Option String) (msg : String)
  | jsError (msg : String)
  | other (rendering : String)
deriving DecidableEq, Repr

namespace TransportError

/-- The message of the Error object that onFailure receives for a thrown
value: the message of an Error, or String of the value otherwise. -/
def errMsgOf : TransportError → String
  | axios _ _ _ m => m
  | jsError m => m
  | other r => r

end TransportError

/-- JavaScript truthiness of the optional status number: undefined and 0 are
falsy. -/
def statusFalsy : Option Nat → Bool
  | none => true
  | some s => s = 0

/-- EnhancedApiService.isRetryableError: for an axios error, retry when the
status is absent or 429, 503 or 504, or when the connection error code is
ECONNRESET or ETIMEDOUT; everything else is not retryable. -/
def isRetryableError : TransportError → Bool
  | TransportError.axios status connCode _ _ =>
      if statusFalsy status || status = some 429 || status = some 503 ||
          status = some 504 then
        true
      else if connCode = some "ECONNRESET" || connCode = some "ETIMEDOUT" then
        true
      else
        false
  | _ => false

/-- The standardized error record produced by handleError (the details field
of the source is not modelled; no claim concerns it). -/
structure ApiErrorRec where
  code : String
  message : String
deriving DecidableEq, Repr

/-- The errorCodeMap of handleError. -/
def errorCodeMap (s : Nat) : Option String :=
  if s = 400 then some "BAD_REQUEST"
  else if s = 401 then some "UNAUTHORIZED"
  else if s = 403 then some "FORBIDDEN"
  else if s = 404 then some "NOT_FOUND"
  else if s = 429 then some "RATE_LIMITED"
  else if s = 500 then some "INTERNAL_SERVER_ERROR"
  else if s = 502 then some "BAD_GATEWAY"
  else if s = 503 then some "SERVICE_UNAVAILABLE"
  else if s = 504 then some "GATEWAY_TIMEOUT"
  else none

/-- JavaScript or-chain over possibly empty strings: an absent or empty left
operand falls through to the right operand. -/
def jsOr (a : Option String) (b : String) : String :=
  match a with
  | some s => if s = "" then b else s
  | none => b

/-- The text of the template HTTP Error with the status interpolated
(undefined when the status is absent). -/
def httpErrorText : Option Nat → String
  | some s => "HTTP Error " ++ toString s
  | none => "HTTP Error undefined"

/-- EnhancedApiService.handleError: an axios error is mapped through
errorCodeMap applied to its status (with 500 substituted for an absent or
falsy status, and API_ERROR for a status outside the map); a plain Error
becomes CLIENT_ERROR; anything else becomes UNKNOWN_ERROR. -/
def handleError : TransportError → ApiErrorRec
  | TransportError.axios status _ serverMsg msg =>
      let k := match status with
        | none => 500
        | some s => if s = 0 then 500 else s
      { code := (errorCodeMap k).getD "API_ERROR"
        message := jsOr serverMsg (jsOr (some msg) (httpErrorText status)) }
  | TransportError.jsError msg =>
      { code := "CLIENT_ERROR", message := msg }
  | TransportError.other _ =>
      { code := "UNKNOWN_ERROR", message := "An unexpected error occurred" }

/-- EnhancedApiService.getErrorStatus: the response status of an axios error
that has a response, 0 otherwise. -/
def getErrorStatus : TransportError → Nat
  | TransportError.axios (some s) _ _ _ => s
  | _ => 0

/-- Outcome of one physical attempt of the underlying transport. -/
inductive PhysOutcome where
  | ok (payload : String) (status : Nat)
  | fail (e : TransportError)
deriving DecidableEq, Repr

/-- The ApiResponse shape returned by get: either data with a status and
success true, or a standardized error with a status and success false. -/
structure ApiResponse where
  resData : Option String
  resError : Option ApiErrorRec
  status : Nat
  success : Bool
deriving DecidableEq, Repr

/-- An outcome recorded by the breaker counters: one onSuccess or one
onFailure call. -/
inductive BreakerEvent where
  | success
  | failure
deriving DecidableEq, Repr

/-- Result of one logical get call: the ApiResponse handed to the caller, the
breaker after the call, the number of physical transport attempts, and the
chronological list of outcomes the breaker recorded during the call. -/
structure GetResult where
  response : ApiResponse
  cb : CircuitBreaker
  attemptsUsed : Nat
  breakerEvents : List BreakerEvent
deriving DecidableEq, Repr

/-- The GetResult when execute rejects the call because the circuit is OPEN:
the thrown circuit-open Error is caught by get and converted through
handleError (CLIENT_ERROR) and getErrorStatus (0); the operation never runs
and the breaker records nothing. -/
def rejectedResult (cb : CircuitBreaker) : GetResult :=
  { response :=
      { resData := none
        resError := some (handleError
          (TransportError.jsError (CircuitBreaker.openMessage cb.lastError)))
        status := 0
        success := false }
    cb := cb
    attemptsUsed := 0
    breakerEvents := [] }

/-- The GetResult when the physical attempt succeeds: get returns the data
response and execute records one success. -/
def okAttemptResult (opts : CircuitBreakerOptions) (cb1 : CircuitBreaker)
    (payload : String) (status : Nat) : GetResult :=
  { response :=
      { resData := some payload
        resError := none
        status := status
        success := true }
    cb := CircuitBreaker.onSuccess opts cb1
    attemptsUsed := 1
    breakerEvents := [BreakerEvent.success] }

/-- The GetResult when the physical attempt fails and is not retried: the
error propagates out of execute (which records one failure) and the catch of
get converts it into an error response. -/
def failAttemptResult (opts : CircuitBreakerOptions) (now : Nat)
    (cb1 : CircuitBreaker) (e : TransportError) : GetResult :=
  { response :=
      { resData := none
        resError := some (handleError e)
        status := getErrorStatus e
        success := false }
    cb := CircuitBreaker.onFailure opts now cb1 e.errMsgOf
    attemptsUsed := 1
    breakerEvents := [BreakerEvent.failure] }

/-- The GetResult of the retry branch: the wrapped operation returns the
response of the recursive get call (which never throws), so the outer execute
records one success on top of whatever the inner call recorded. -/
def retriedResult (opts : CircuitBreakerOptions) (inner : GetResult) :
    GetResult :=
  { response := inner.response
    cb := CircuitBreaker.onSuccess opts inner.cb
    attemptsUsed := 1 + inner.attemptsUsed
    breakerEvents := inner.breakerEvents ++ [BreakerEvent.success] }

/-- EnhancedApiService.get, with the transport embedded as the function tr
from the physical attempt index to its outcome and Date.now embedded as the
constant now (the backoff delays do not influence any field the claims
mention).  The call runs through circuitBreaker.execute; inside the wrapped
operation, a failed attempt whose error is retryable is retried, when the
retries budget allows, by recursing into the full public get with the budget
decremented - the recursive call passes through the breaker again and, since
get catches every error, resolves rather than rejects. -/
def getCall (opts : CircuitBreakerOptions) (now : Nat)
    (tr : Nat → PhysOutcome) :
    Nat → Nat → CircuitBreaker → GetResult
  | i, 0, cb =>
      if cb.state = CBState.OPEN ∧ now ≤ cb.nextAttempt then
        rejectedResult cb
      else
        let cb1 := if cb.state = CBState.OPEN then cb.toHalfOpen else cb
        match tr i with
        | PhysOutcome.ok d s => okAttemptResult opts cb1 d s
        | PhysOutcome.fail e => failAttemptResult opts now cb1 e
  | i, retries + 1, cb =>
      if cb.state = CBState.OPEN ∧ now ≤ cb.nextAttempt then
        rejectedResult cb
      else
        let cb1 := if cb.state = CBState.OPEN then cb.toHalfOpen else cb
        match tr i with
        | PhysOutcome.ok d s => okAttemptResult opts cb1 d s
        | PhysOutcome.fail e =>
            if isRetryableError e then
              retriedResult opts (getCall opts now tr (i + 1) retries cb1)
            else
              failAttemptResult opts now cb1 e

/-! ## Service adapters

The adapters extend the base class ApiService, whose file is not part of the
snapshot; its post method is therefore embedded as an abstract total function
from the breaker to a response and a breaker.  Each adapter checks its
credential before delegating: the missing-credential branch, which the claims
are about, is entirely in the adapter sources. -/

/-- JavaScript falsiness of the configured apiKey: undefined or the empty
string count as missing. -/
def keyMissing : Option String → Bool
  | none => true
  | some s => s = ""

/-- The slice of ApiServiceConfig an adapter consults for its credential
check. -/
structure AdapterConfig where
  apiKey : Option String
deriving DecidableEq, Repr

/-- The response GrokService.getSuggestions returns when no API key is
configured. -/
def grokAuthResponse : ApiResponse :=
  { resData := none
    resError := some
      { code := "GROK_AUTH_ERROR"
        message := "No API key provided for Grok AI" }
    status := 401
    success := false }

/-- GrokService.getSuggestions: with a missing key, return the auth error at
once; otherwise delegate to post. -/
def grokGetSuggestions (cfg : AdapterConfig)
    (post : CircuitBreaker → ApiResponse × CircuitBreaker)
    (cb : CircuitBreaker) : ApiResponse × CircuitBreaker :=
  if keyMissing cfg.apiKey then (grokAuthResponse, cb) else post cb

/-- The response AnthropicService.query returns when no API key is
configured. -/
def anthropicAuthResponse : ApiResponse :=
  { resData := none
    resError := some
      { code := "ANTHROPIC_AUTH_ERROR"
        message := "No API key provided for Anthropic Claude" }
    status := 401
    success := false }

/-- AnthropicService.query: with a missing key, return the auth error at once;
otherwise delegate to post and reshape a successful payload into the
LanguageResponse form (the reshaping of the payload is abstracted as the
function reshape; status and success flags pass through unchanged, as in the
source). -/
def anthropicQuery (cfg : AdapterConfig)
    (post : CircuitBreaker → ApiResponse × CircuitBreaker)
    (reshape : String → String) (cb : CircuitBreaker) :
    ApiResponse × CircuitBreaker :=
  if keyMissing cfg.apiKey then (anthropicAuthResponse, cb)
  else
    let rp := post cb
    match rp.1.success, rp.1.resData with
    | true, some d => ({ rp.1 with resData := some (reshape d) }, rp.2)
    | _, _ => rp

/-- The configuration FluxService reads: the Replicate token and the fallback
policy. -/
structure FluxConfig where
  apiKey : Option String
  fallbackEnabled : Bool
  fallbackImages : List String
  placeholderUrl : String
deriving DecidableEq, Repr

/-- The ImageGenerationResponse payload: the url, the echoed prompt, the
optional FALLBACK_USED error record, and the fallback tag. -/
structure ImageGenData where
  url : String
  prompt : String
  genError : Option ApiErrorRec
  fallback : Bool
deriving DecidableEq, Repr

/-- ApiResponse of ImageGenerationResponse as returned by
FluxService.generateImage. -/
structure FluxResponse where
  imgData : Option ImageGenData
  resError : Option ApiErrorRec
  status : Nat
  success : Bool
deriving DecidableEq, Repr

/-- FluxService.getFallbackImage: the placeholder when fallbacks are disabled
or no local images exist, otherwise a pseudo-randomly selected local image;
Math.random is embedded as the index idx reduced modulo the list length. -/
def getFallbackImage (cfg : FluxConfig) (idx : Nat) : String :=
  if cfg.fallbackEnabled = false ∨ cfg.fallbackImages = [] then
    cfg.placeholderUrl
  else
    cfg.fallbackImages.getD (idx % cfg.fallbackImages.length)
      cfg.placeholderUrl

/-- FluxService.createFallbackResponse: a success (status 200) carrying a
fallback image, the prompt, a FALLBACK_USED error record with the given
message, and the tag fallback true. -/
def createFallbackResponse (cfg : FluxConfig) (idx : Nat)
    (prompt errMsg : String) : FluxResponse :=
  { imgData := some
      { url := getFallbackImage cfg idx
        prompt := prompt
        genError := some { code := "FALLBACK_USED", message := errMsg }
        fallback := true }
    resError := none
    status := 200
    success := true }

/-- FluxService.generateImage: with a missing token, return a fallback
response at once; otherwise delegate to post and substitute a fallback when
the call failed and the fallback policy is enabled. -/
def fluxGenerateImage (cfg : FluxConfig) (idx : Nat)
    (post : CircuitBreaker → FluxResponse × CircuitBreaker)
    (prompt : String) (cb : CircuitBreaker) :
    FluxResponse × CircuitBreaker :=
  if keyMissing cfg.apiKey then
    (createFallbackResponse cfg idx prompt "No API token configured", cb)
  else
    let rp := post cb
    if rp.1.success = false ∧ cfg.fallbackEnabled then
      (createFallbackResponse cfg idx prompt
        (jsOr (rp.1.resError.map ApiErrorRec.message)
          "Failed to generate image"), rp.2)
    else rp

/-! ## Derived notions used by the claims -/

/-- n consecutive failed executions through the breaker: execution number j
(counting from 1) happens at time t of (j-1) and its wrapped operation fails
with the error message e. -/
def consecFail (opts : CircuitBreakerOptions) (t : Nat → Nat) (e : String) :
    Nat → CircuitBreaker → CircuitBreaker
  | 0, cb => cb
  | n + 1, cb =>
      (CircuitBreaker.execute opts (t n) (consecFail opts t e n cb)
        (CircuitBreaker.Outcome.fail e : CircuitBreaker.Outcome Unit)).cb

/-- The threshold invariant: while CLOSED the failure counter is strictly
below failureThreshold, and while HALF_OPEN the success counter is strictly
below successThreshold. -/
def thresholdInv (opts : CircuitBreakerOptions) (cb : CircuitBreaker) : Prop :=
  (cb.state = CBState.CLOSED → cb.failureCount < opts.failureThreshold) ∧
  (cb.state = CBState.HALF_OPEN → cb.successCount < opts.successThreshold)

instance (opts : CircuitBreakerOptions) (cb : CircuitBreaker) :
    Decidable (thresholdInv opts cb) := by
  unfold thresholdInv; infer_instance

/-! ## Helper lemmas -/

/-- While the failure threshold has not been reached, consecutive failed
executions from a fresh CLOSED breaker stay CLOSED and count up by one. -/
theorem consecFail_closed_aux (opts : CircuitBreakerOptions) (t : Nat → Nat)
    (e : String) (s na : Nat) (le : Option String) :
    ∀ k, k < opts.failureThreshold →
      consecFail opts t e k ⟨CBState.CLOSED, 0, s, na, le⟩ =
        ⟨CBState.CLOSED, k, s, na, if k = 0 then le else some e⟩ := by
  intro k
  induction k with
  | zero => intro _; rfl
  | succ n ih =>
      intro hk
      have hn : n < opts.failureThreshold := Nat.lt_of_succ_lt hk
      have hlt : ¬ (opts.failureThreshold ≤ n + 1) := by omega
      simp only [consecFail, ih hn, CircuitBreaker.execute,
        CircuitBreaker.runOp, CircuitBreaker.onFailure]
      simp [hlt]

/-- The reset breaker satisfies the threshold invariant whenever the failure
threshold is positive. -/
theorem inv_reset_aux (opts : CircuitBreakerOptions) (cb : CircuitBreaker)
    (hf : 1 ≤ opts.failureThreshold) : thresholdInv opts cb.reset := by
  obtain ⟨cs, fc, sc, na, le⟩ := cb
  exact ⟨fun _ => hf, by simp [CircuitBreaker.reset]⟩

/-- onSuccess always restores the threshold invariant when both thresholds
are positive. -/
theorem inv_onSuccess_aux (opts : CircuitBreakerOptions) (cb : CircuitBreaker)
    (hf : 1 ≤ opts.failureThreshold) :
    thresholdInv opts (CircuitBreaker.onSuccess opts cb) := by
  obtain ⟨cs, fc, sc, na, le⟩ := cb
  cases cs with
  | CLOSED => exact ⟨fun _ => hf, by simp [CircuitBreaker.onSuccess]⟩
  | OPEN => exact ⟨by simp [CircuitBreaker.onSuccess], by simp [CircuitBreaker.onSuccess]⟩
  | HALF_OPEN =>
      by_cases h : opts.successThreshold ≤ sc + 1
      · simp only [CircuitBreaker.onSuccess, if_pos h]
        exact inv_reset_aux opts _ hf
      · simp only [CircuitBreaker.onSuccess, if_neg h]
        exact ⟨by simp, fun _ => by simpa using Nat.lt_of_not_le h⟩

/-- onFailure always restores the threshold invariant. -/
theorem inv_onFailure_aux (opts : CircuitBreakerOptions) (cb : CircuitBreaker)
    (now : Nat) (e : String) :
    thresholdInv opts (CircuitBreaker.onFailure opts now cb e) := by
  obtain ⟨cs, fc, sc, na, le⟩ := cb
  cases cs with
  | CLOSED =>
      by_cases h : opts.failureThreshold ≤ fc + 1
      · simp only [CircuitBreaker.onFailure, if_pos h]
        exact ⟨by simp [CircuitBreaker.toOpen], by simp [CircuitBreaker.toOpen]⟩
      · simp only [CircuitBreaker.onFailure, if_neg h]
        exact ⟨fun _ => by simpa using Nat.lt_of_not_le h, by simp⟩
  | OPEN =>
      exact ⟨by simp [CircuitBreaker.onFailure], by simp [CircuitBreaker.onFailure]⟩
  | HALF_OPEN =>
      exact ⟨by simp [CircuitBreaker.onFailure, CircuitBreaker.toOpen],
             by simp [CircuitBreaker.onFailure, CircuitBreaker.toOpen]⟩

/-- Physical attempts of getCall are bounded by the retry budget plus one. -/
theorem getCall_attempts_le_aux (opts : CircuitBreakerOptions) (now : Nat)
    (tr : Nat → PhysOutcome) :
    ∀ retries i cb,
      (getCall opts now tr i retries cb).attemptsUsed ≤ retries + 1 := by
  intro retries
  induction retries with
  | zero =>
      intro i cb
      simp only [getCall]
      split
      · simp [rejectedResult]
      · cases tr i <;> simp [okAttemptResult, failAttemptResult]
  | succ r ih =>
      intro i cb
      simp only [getCall]
      split
      · simp [rejectedResult]
      · cases htr : tr i with
        | ok d s => simp [okAttemptResult]
        | fail e =>
            by_cases hr : isRetryableError e
            · simp only [hr, if_true, retriedResult]
              have := ih (i + 1)
                (if cb.state = CBState.OPEN then cb.toHalfOpen else cb)
              omega
            · simp [hr, failAttemptResult]

/-! ## Claim theorems -/

/-- Claim C2: for every failureThreshold N with N at least 1, starting from
CLOSED with failureCount 0, fewer than N consecutive failed executions leave
the breaker CLOSED, and after exactly N of them it is OPEN with nextAttempt
equal to the time of the Nth failure plus the configured timeout and with
successCount zeroed. -/
theorem c2_failure_threshold_opens (opts : CircuitBreakerOptions)
    (t : Nat → Nat) (e : String) (s na : Nat) (le : Option String)
    (N k : Nat) (hth : opts.failureThreshold = N) (hN : 1 ≤ N) :
    (k < N →
      (consecFail opts t e k ⟨CBState.CLOSED, 0, s, na, le⟩).state =
        CBState.CLOSED) ∧
    (consecFail opts t e N ⟨CBState.CLOSED, 0, s, na, le⟩).state =
      CBState.OPEN ∧
    (consecFail opts t e N ⟨CBState.CLOSED, 0, s, na, le⟩).nextAttempt =
      t (N - 1) + opts.timeout ∧
    (consecFail opts t e N ⟨CBState.CLOSED, 0, s, na, le⟩).successCount = 0 := by
  obtain ⟨m, rfl⟩ : ∃ m, N = m + 1 := ⟨N - 1, by omega⟩
  have hm : m < opts.failureThreshold := by omega
  have hstep :
      consecFail opts t e (m + 1) ⟨CBState.CLOSED, 0, s, na, le⟩ =
        (CircuitBreaker.execute opts (t m)
          (consecFail opts t e m ⟨CBState.CLOSED, 0, s, na, le⟩)
          (CircuitBreaker.Outcome.fail e : CircuitBreaker.Outcome Unit)).cb :=
    rfl
  refine ⟨fun hk => ?_, ?_⟩
  · rw [consecFail_closed_aux opts t e s na le k (by omega)]
  · rw [hstep, consecFail_closed_aux opts t e s na le m hm]
    have hge : opts.failureThreshold ≤ m + 1 := by omega
    simp [CircuitBreaker.execute, CircuitBreaker.runOp,
      CircuitBreaker.onFailure, CircuitBreaker.toOpen, hge]

/-- Witness for c2_failure_threshold_opens at failureThreshold 2, one failure
leaving it CLOSED and a second one opening it at time 11 plus timeout
1000. -/
theorem c2_failure_threshold_opens_witness :
    (consecFail ⟨2, 2, 1000⟩ (fun n => 10 + n) "boom" 1
      ⟨CBState.CLOSED, 0, 5, 7, none⟩).state = CBState.CLOSED ∧
    (consecFail ⟨2, 2, 1000⟩ (fun n => 10 + n) "boom" 2
      ⟨CBState.CLOSED, 0, 5, 7, none⟩).state = CBState.OPEN ∧
    (consecFail ⟨2, 2, 1000⟩ (fun n => 10 + n) "boom" 2
      ⟨CBState.CLOSED, 0, 5, 7, none⟩).nextAttempt = 1011 ∧
    (consecFail ⟨2, 2, 1000⟩ (fun n => 10 + n) "boom" 2
      ⟨CBState.CLOSED, 0, 5, 7, none⟩).successCount = 0 := by
  have h := c2_failure_threshold_opens ⟨2, 2, 1000⟩ (fun n => 10 + n) "boom"
    5 7 none 2 1 rfl (by decide)
  exact ⟨h.1 (by decide), h.2.1, h.2.2.1, h.2.2.2⟩

/-- Claim C3: while OPEN with now strictly before nextAttempt, execute never
invokes the wrapped operation and fails at once with the circuit-open message,
which carries the message of lastError when one is present. -/
theorem c3_open_rejection_no_invocation {α : Type}
    (opts : CircuitBreakerOptions) (now : Nat) (cb : CircuitBreaker)
    (op : CircuitBreaker.Outcome α) (m : String)
    (h1 : cb.state = CBState.OPEN) (h2 : now < cb.nextAttempt) :
    (CircuitBreaker.execute opts now cb op).invocations = 0 ∧
    (CircuitBreaker.execute opts now cb op).result =
      Except.error (CircuitBreaker.openMessage cb.lastError) ∧
    (cb.lastError = some m →
      (CircuitBreaker.execute opts now cb op).result =
        Except.error ("Service unavailable - Circuit Breaker Open: " ++ m)) := by
  have hle : ¬ (cb.nextAttempt < now) := by omega
  simp only [CircuitBreaker.execute, if_pos h1, if_neg hle]
  refine ⟨trivial, trivial, fun hm => ?_⟩
  simp only [CircuitBreaker.openMessage, hm]
  rw [← String.append_assoc]
  congr 1

/-- Witness for c3_open_rejection_no_invocation with nextAttempt 9, now 4 and
lastError present. -/
theorem c3_open_rejection_no_invocation_witness :
    (CircuitBreaker.execute ⟨3, 2, 1000⟩ 4
      ⟨CBState.OPEN, 3, 0, 9, some "boom"⟩
      (CircuitBreaker.Outcome.ok (0 : Nat))).invocations = 0 ∧
    (CircuitBreaker.execute ⟨3, 2, 1000⟩ 4
      ⟨CBState.OPEN, 3, 0, 9, some "boom"⟩
      (CircuitBreaker.Outcome.ok (0 : Nat))).result =
      Except.error "Service unavailable - Circuit Breaker Open: boom" := by
  have h := c3_open_rejection_no_invocation ⟨3, 2, 1000⟩ 4
    ⟨CBState.OPEN, 3, 0, 9, some "boom"⟩
    (CircuitBreaker.Outcome.ok (0 : Nat)) "boom" rfl (by decide)
  exact ⟨h.1, h.2.2 rfl⟩

/-- Claim C4: any single failure while HALF_OPEN sends the breaker straight
back to OPEN, for every configuration (hence independently of
successThreshold), with nextAttempt set to now plus the timeout and
successCount zeroed, after exactly one invocation. -/
theorem c4_half_open_single_strike (opts : CircuitBreakerOptions) (now : Nat)
    (cb : CircuitBreaker) (e : String) (h : cb.state = CBState.HALF_OPEN) :
    (CircuitBreaker.execute opts now cb
      (CircuitBreaker.Outcome.fail e : CircuitBreaker.Outcome Unit)).cb.state =
      CBState.OPEN ∧
    (CircuitBreaker.execute opts now cb
      (CircuitBreaker.Outcome.fail e :
        CircuitBreaker.Outcome Unit)).cb.nextAttempt = now + opts.timeout ∧
    (CircuitBreaker.execute opts now cb
      (CircuitBreaker.Outcome.fail e :
        CircuitBreaker.Outcome Unit)).cb.successCount = 0 ∧
    (CircuitBreaker.execute opts now cb
      (CircuitBreaker.Outcome.fail e :
        CircuitBreaker.Outcome Unit)).invocations = 1 := by
  obtain ⟨cs, fc, sc, na, le⟩ := cb
  change cs = CBState.HALF_OPEN at h
  subst h
  exact ⟨rfl, rfl, rfl, rfl⟩

/-- Witness for c4_half_open_single_strike at successThreshold 5 with
successCount already 4. -/
theorem c4_half_open_single_strike_witness :
    (CircuitBreaker.execute ⟨3, 5, 1000⟩ 50
      ⟨CBState.HALF_OPEN, 0, 4, 9, none⟩
      (CircuitBreaker.Outcome.fail "still down" :
        CircuitBreaker.Outcome Unit)).cb.state = CBState.OPEN ∧
    (CircuitBreaker.execute ⟨3, 5, 1000⟩ 50
      ⟨CBState.HALF_OPEN, 0, 4, 9, none⟩
      (CircuitBreaker.Outcome.fail "still down" :
        CircuitBreaker.Outcome Unit)).cb.nextAttempt = 1050 ∧
    (CircuitBreaker.execute ⟨3, 5, 1000⟩ 50
      ⟨CBState.HALF_OPEN, 0, 4, 9, none⟩
      (CircuitBreaker.Outcome.fail "still down" :
        CircuitBreaker.Outcome Unit)).cb.successCount = 0 := by
  have h := c4_half_open_single_strike ⟨3, 5, 1000⟩ 50
    ⟨CBState.HALF_OPEN, 0, 4, 9, none⟩ "still down" rfl
  exact ⟨h.1, h.2.1, h.2.2.1⟩

/-- Claim C7 counterexample: at the exact boundary instant now equal to
nextAttempt (here both 5), an execute call on an OPEN breaker performs zero
invocations and leaves the breaker OPEN, although the claim requires a
transition to HALF_OPEN followed by exactly one invocation whenever now is at
least nextAttempt. -/
theorem c7_boundary_instant_rejected :
    (CircuitBreaker.mk CBState.OPEN 3 0 5 none).nextAttempt ≤ 5 ∧
    (CircuitBreaker.execute ⟨3, 2, 1000⟩ 5
      (CircuitBreaker.mk CBState.OPEN 3 0 5 none)
      (CircuitBreaker.Outcome.ok (0 : Nat))).invocations = 0 ∧
    (CircuitBreaker.execute ⟨3, 2, 1000⟩ 5
      (CircuitBreaker.mk CBState.OPEN 3 0 5 none)
      (CircuitBreaker.Outcome.ok (0 : Nat))).cb.state = CBState.OPEN :=
  ⟨Nat.le_refl 5, rfl, rfl⟩

/-- Claim C7 as amended: whenever execute is invoked while OPEN and now is
strictly greater than nextAttempt (the source compares with strict greater
than, so the boundary instant now equal to nextAttempt still rejects), the
breaker first transitions to HALF_OPEN and then invokes the wrapped operation
exactly once. -/
theorem c7_strict_elapse_half_open_probe {α : Type}
    (opts : CircuitBreakerOptions) (now : Nat) (cb : CircuitBreaker)
    (op : CircuitBreaker.Outcome α)
    (h1 : cb.state = CBState.OPEN) (h2 : cb.nextAttempt < now) :
    (CircuitBreaker.execute opts now cb op).invocations = 1 ∧
    (CircuitBreaker.execute opts now cb op).stateAtInvocation =
      some CBState.HALF_OPEN := by
  simp only [CircuitBreaker.execute, if_pos h1, if_pos h2]
  cases op <;> simp [CircuitBreaker.runOp, CircuitBreaker.toHalfOpen]

/-- Witness for c7_strict_elapse_half_open_probe one millisecond after the
deadline. -/
theorem c7_strict_elapse_half_open_probe_witness :
    (CircuitBreaker.execute ⟨3, 2, 1000⟩ 6
      ⟨CBState.OPEN, 3, 0, 5, none⟩
      (CircuitBreaker.Outcome.ok (0 : Nat))).invocations = 1 ∧
    (CircuitBreaker.execute ⟨3, 2, 1000⟩ 6
      ⟨CBState.OPEN, 3, 0, 5, none⟩
      (CircuitBreaker.Outcome.ok (0 : Nat))).stateAtInvocation =
      some CBState.HALF_OPEN :=
  c7_strict_elapse_half_open_probe ⟨3, 2, 1000⟩ 6
    ⟨CBState.OPEN, 3, 0, 5, none⟩ (CircuitBreaker.Outcome.ok 0) rfl
    (by decide)

/-- Claim C9: with both thresholds positive, the threshold invariant (strictly
below failureThreshold while CLOSED, strictly below successThreshold while
HALF_OPEN) is preserved by every execute call and holds of every reset
breaker. -/
theorem c9_threshold_invariant {α : Type} (opts : CircuitBreakerOptions)
    (now : Nat) (cb : CircuitBreaker) (op : CircuitBreaker.Outcome α)
    (hf : 1 ≤ opts.failureThreshold) (_hs : 1 ≤ opts.successThreshold)
    (hinv : thresholdInv opts cb) :
    thresholdInv opts (CircuitBreaker.execute opts now cb op).cb ∧
    thresholdInv opts cb.reset := by
  refine ⟨?_, inv_reset_aux opts cb hf⟩
  simp only [CircuitBreaker.execute]
  split
  · split
    · cases op with
      | ok v => exact inv_onSuccess_aux opts _ hf
      | fail e => exact inv_onFailure_aux opts _ now e
    · exact hinv
  · cases op with
    | ok v => exact inv_onSuccess_aux opts _ hf
    | fail e => exact inv_onFailure_aux opts _ now e

/-- Witness for c9_threshold_invariant: a CLOSED breaker one failure short of
its threshold, executing a failing operation. -/
theorem c9_threshold_invariant_witness :
    thresholdInv ⟨3, 2, 1000⟩
      (CircuitBreaker.execute ⟨3, 2, 1000⟩ 40
        ⟨CBState.CLOSED, 2, 0, 0, none⟩
        (CircuitBreaker.Outcome.fail "down" :
          CircuitBreaker.Outcome Unit)).cb ∧
    thresholdInv ⟨3, 2, 1000⟩
      (CircuitBreaker.mk CBState.CLOSED 2 0 0 none).reset :=
  c9_threshold_invariant ⟨3, 2, 1000⟩ 40 ⟨CBState.CLOSED, 2, 0, 0, none⟩
    (CircuitBreaker.Outcome.fail "down") (by decide) (by decide) (by decide)

/-- Claim C10: a rejection of execute while OPEN with now strictly before
nextAttempt changes no field of the breaker at all. -/
theorem c10_open_rejection_frame {α : Type} (opts : CircuitBreakerOptions)
    (now : Nat) (cb : CircuitBreaker) (op : CircuitBreaker.Outcome α)
    (h1 : cb.state = CBState.OPEN) (h2 : now < cb.nextAttempt) :
    (CircuitBreaker.execute opts now cb op).cb = cb := by
  have hle : ¬ (cb.nextAttempt < now) := by omega
  simp only [CircuitBreaker.execute, if_pos h1, if_neg hle]

/-- Witness for c10_open_rejection_frame on a breaker with nonzero counters
and a recorded error. -/
theorem c10_open_rejection_frame_witness :
    (CircuitBreaker.execute ⟨3, 2, 1000⟩ 4
      ⟨CBState.OPEN, 3, 1, 9, some "boom"⟩
      (CircuitBreaker.Outcome.ok (0 : Nat))).cb =
      ⟨CBState.OPEN, 3, 1, 9, some "boom"⟩ :=
  c10_open_rejection_frame ⟨3, 2, 1000⟩ 4 ⟨CBState.OPEN, 3, 1, 9, some "boom"⟩
    (CircuitBreaker.Outcome.ok 0) rfl (by decide)

/-- Claim C5 counterexample: a 502 response is not retryable in the source
classifier, and a no-status transport failure, while retryable, is classified
INTERNAL_SERVER_ERROR (through the 500 default of handleError) rather than
NETWORK_ERROR. -/
theorem c5_classifier_counterexample :
    isRetryableError
      (TransportError.axios (some 502) none none "Bad Gateway") = false ∧
    (handleError (TransportError.axios none none none "socket hang up")).code =
      "INTERNAL_SERVER_ERROR" ∧
    isRetryableError
      (TransportError.axios none none none "socket hang up") = true :=
  ⟨rfl, rfl, rfl⟩

/-- Claim C5 as amended: an axios outcome is retryable exactly when its status
is absent (or 0), or is 429, 503 or 504, or its connection error code is
ECONNRESET or ETIMEDOUT - so 502, like every other 4xx and 5xx status, is
terminal on the first attempt; non-axios outcomes are never retryable; and a
no-status outcome, though retryable, is classified INTERNAL_SERVER_ERROR (not
NETWORK_ERROR, a kind the classifier never produces). -/
theorem c5_classifier_characterization :
    (∀ st cc sm m,
      isRetryableError (TransportError.axios st cc sm m) =
        ((statusFalsy st || decide (st = some 429) || decide (st = some 503) ||
            decide (st = some 504)) ||
          (decide (cc = some "ECONNRESET") ||
            decide (cc = some "ETIMEDOUT")))) ∧
    (∀ m, isRetryableError (TransportError.jsError m) = false) ∧
    (∀ r, isRetryableError (TransportError.other r) = false) ∧
    (∀ cc sm m,
      (handleError (TransportError.axios none cc sm m)).code =
        "INTERNAL_SERVER_ERROR" ∧
      isRetryableError (TransportError.axios none cc sm m) = true) := by
  refine ⟨fun st cc sm m => ?_, fun m => rfl, fun r => rfl,
    fun cc sm m => ⟨rfl, rfl⟩⟩
  simp only [isRetryableError]
  split_ifs with h1 h2 <;> simp_all

/-- Claim C6: for every logical getCall with retry budget r, the number of
physical transport attempts is at most r plus 1; and when the breaker admits
the call (CLOSED) and the first attempt fails with a non-retryable error,
exactly one physical attempt occurs regardless of r. -/
theorem c6_attempt_budget (opts : CircuitBreakerOptions) (now : Nat)
    (tr : Nat → PhysOutcome) (i retries : Nat) (cb : CircuitBreaker)
    (e : TransportError) :
    (getCall opts now tr i retries cb).attemptsUsed ≤ retries + 1 ∧
    (cb.state = CBState.CLOSED → tr i = PhysOutcome.fail e →
      isRetryableError e = false →
      (getCall opts now tr i retries cb).attemptsUsed = 1) := by
  refine ⟨getCall_attempts_le_aux opts now tr retries i cb, ?_⟩
  intro hcs htr hre
  have hno : ¬ (cb.state = CBState.OPEN ∧ now ≤ cb.nextAttempt) := by
    simp [hcs]
  have hcb1 : (if cb.state = CBState.OPEN then cb.toHalfOpen else cb) = cb :=
    by simp [hcs]
  cases retries with
  | zero =>
      simp only [getCall, if_neg hno, hcb1, htr]
      rfl
  | succ r =>
      simp only [getCall, if_neg hno, hcb1, htr, hre]
      rfl

/-- Witness for c6_attempt_budget: a 404 on the first attempt with a retry
budget of 2 performs exactly one physical attempt. -/
theorem c6_attempt_budget_witness :
    (getCall ⟨3, 2, 30000⟩ 100
      (fun _ => PhysOutcome.fail
        (TransportError.axios (some 404) none none "Not Found"))
      0 2 CircuitBreaker.init).attemptsUsed ≤ 3 ∧
    (getCall ⟨3, 2, 30000⟩ 100
      (fun _ => PhysOutcome.fail
        (TransportError.axios (some 404) none none "Not Found"))
      0 2 CircuitBreaker.init).attemptsUsed = 1 := by
  have h := c6_attempt_budget ⟨3, 2, 30000⟩ 100
    (fun _ => PhysOutcome.fail
      (TransportError.axios (some 404) none none "Not Found"))
    0 2 CircuitBreaker.init
    (TransportError.axios (some 404) none none "Not Found")
  exact ⟨h.1, h.2 rfl rfl rfl⟩

/-- Claim C8 counterexample: the Flux adapter with an absent API token does
not return an UNAUTHORIZED-class error: it immediately returns a success
(status 200) carrying a fallback image tagged fallback true, with no error
field, leaving the breaker untouched. -/
theorem c8_flux_missing_key_success :
    (fluxGenerateImage ⟨none, true, ["a.png"], "p.png"⟩ 0
      (fun c => (⟨none, none, 500, false⟩, c)) "word"
      CircuitBreaker.init).1.success = true ∧
    (fluxGenerateImage ⟨none, true, ["a.png"], "p.png"⟩ 0
      (fun c => (⟨none, none, 500, false⟩, c)) "word"
      CircuitBreaker.init).1.status = 200 ∧
    (fluxGenerateImage ⟨none, true, ["a.png"], "p.png"⟩ 0
      (fun c => (⟨none, none, 500, false⟩, c)) "word"
      CircuitBreaker.init).1.resError = none ∧
    (fluxGenerateImage ⟨none, true, ["a.png"], "p.png"⟩ 0
      (fun c => (⟨none, none, 500, false⟩, c)) "word"
      CircuitBreaker.init).1.imgData.map ImageGenData.fallback = some true ∧
    (fluxGenerateImage ⟨none, true, ["a.png"], "p.png"⟩ 0
      (fun c => (⟨none, none, 500, false⟩, c)) "word"
      CircuitBreaker.init).2 = CircuitBreaker.init :=
  ⟨rfl, rfl, rfl, rfl, rfl⟩

/-- Claim C8 as amended: with an absent or empty credential, every adapter
operation returns immediately, never invokes the delegated post (the result is
a constant independent of it) and leaves the breaker exactly as it was; the
Grok and Anthropic adapters return a status 401 auth-error response, while the
Flux adapter instead returns a status 200 fallback success. -/
theorem c8_missing_key_bypasses_breaker (cfgG cfgA : AdapterConfig)
    (cfgF : FluxConfig) (idx : Nat)
    (postG postA : CircuitBreaker → ApiResponse × CircuitBreaker)
    (postF : CircuitBreaker → FluxResponse × CircuitBreaker)
    (reshape : String → String) (prompt : String) (cb : CircuitBreaker)
    (hG : keyMissing cfgG.apiKey = true)
    (hA : keyMissing cfgA.apiKey = true)
    (hF : keyMissing cfgF.apiKey = true) :
    grokGetSuggestions cfgG postG cb = (grokAuthResponse, cb) ∧
    anthropicQuery cfgA postA reshape cb = (anthropicAuthResponse, cb) ∧
    fluxGenerateImage cfgF idx postF prompt cb =
      (createFallbackResponse cfgF idx prompt "No API token configured", cb) ∧
    grokAuthResponse.success = false ∧ grokAuthResponse.status = 401 ∧
    anthropicAuthResponse.success = false ∧
    anthropicAuthResponse.status = 401 ∧
    (createFallbackResponse cfgF idx prompt
      "No API token configured").success = true ∧
    (createFallbackResponse cfgF idx prompt
      "No API token configured").status = 200 := by
  refine ⟨?_, ?_, ?_, rfl, rfl, rfl, rfl, rfl, rfl⟩
  · simp [grokGetSuggestions, hG]
  · simp [anthropicQuery, hA]
  · simp [fluxGenerateImage, hF]

/-- Witness for c8_missing_key_bypasses_breaker with all three credentials
absent. -/
theorem c8_missing_key_bypasses_breaker_witness :
    grokGetSuggestions ⟨none⟩ (fun c => (grokAuthResponse, c))
      CircuitBreaker.init = (grokAuthResponse, CircuitBreaker.init) ∧
    anthropicQuery ⟨none⟩ (fun c => (anthropicAuthResponse, c))
      (fun s => s) CircuitBreaker.init =
      (anthropicAuthResponse, CircuitBreaker.init) ∧
    fluxGenerateImage ⟨none, true, ["a.png"], "p.png"⟩ 0
      (fun c => (⟨none, none, 500, false⟩, c)) "word" CircuitBreaker.init =
      (createFallbackResponse ⟨none, true, ["a.png"], "p.png"⟩ 0 "word"
        "No API token configured", CircuitBreaker.init) := by
  have h := c8_missing_key_bypasses_breaker ⟨none⟩ ⟨none⟩
    ⟨none, true, ["a.png"], "p.png"⟩ 0 (fun c => (grokAuthResponse, c))
    (fun c => (anthropicAuthResponse, c))
    (fun c => (⟨none, none, 500, false⟩, c)) (fun s => s) "word"
    CircuitBreaker.init rfl rfl rfl
  exact ⟨h.1, h.2.1, h.2.2.1⟩

/-- Claim C1: with a retry budget of 2 and every physical attempt failing with
a retryable no-status error, the logical call performs 3 physical attempts and
ends in a failure response, yet the breaker does not observe exactly one
outcome: the retry recursion re-enters execute at every level, so the breaker
records the innermost failure followed by two successes (the inner calls
resolve with error responses instead of rejecting), leaving failureCount at 0
where the claim requires a single recorded failure. -/
theorem c1_retry_loop_breaker_observation :
    getCall ⟨3, 2, 30000⟩ 100
      (fun _ => PhysOutcome.fail
        (TransportError.axios none none none "network down"))
      0 2 CircuitBreaker.init =
      { response :=
          { resData := none
            resError := some
              { code := "INTERNAL_SERVER_ERROR", message := "network down" }
            status := 0
            success := false }
        cb :=
          { state := CBState.CLOSED
            failureCount := 0
            successCount := 0
            nextAttempt := 0
            lastError := some "network down" }
        attemptsUsed := 3
        breakerEvents := [BreakerEvent.failure, BreakerEvent.success,
          BreakerEvent.success] } :=
  rfl

end DeepWordsmith
